import Mathlib

set_option maxRecDepth 8192

/-!
Verification of `src/tracing/metric_keys.h` and of the metric
emission/collection core its specification describes.

The header itself only declares a `typedef` and ten `constexpr` string
constants; those are embedded directly.  The emission core
(`RegisterSink` / `UnregisterSink` / `Emit`) is not part of the supplied
sources, so it is modelled from the specification text and marked as such
on each definition.
-/

namespace chip

namespace Tracing

/-- Embeds `typedef const char * MetricKey;` (line 27): a metric key is an
immutable, statically-known string identifier, modelled by its string
value. -/
abbrev MetricKey := String

/-- `constexpr MetricKey kMetricDiscoveryOverBLE = "disc-over-ble";` -/
def kMetricDiscoveryOverBLE : MetricKey := "disc-over-ble"

/-- `constexpr MetricKey kMetricDiscoveryOnNetwork = "disc-on-nw";` -/
def kMetricDiscoveryOnNetwork : MetricKey := "disc-on-nw"

/-- `constexpr MetricKey kMetricPASESession = "pase-session";` -/
def kMetricPASESession : MetricKey := "pase-session"

/-- `constexpr MetricKey kMetricPASESessionPair = "pase-session-pair";` -/
def kMetricPASESessionPair : MetricKey := "pase-session-pair"

/-- `constexpr MetricKey kMetricPASESessionBLE = "pase-session-ble";` -/
def kMetricPASESessionBLE : MetricKey := "pase-session-ble"

/-- `constexpr MetricKey kMetricAttestationResult = "attestation-result";` -/
def kMetricAttestationResult : MetricKey := "attestation-result"

/-- `constexpr MetricKey kMetricAttestationOverridden = "attestation-overridden";` -/
def kMetricAttestationOverridden : MetricKey := "attestation-overridden"

/-- `constexpr MetricKey kMetricCASESession = "case-session";` -/
def kMetricCASESession : MetricKey := "case-session"

/-- `constexpr MetricKey kMetricCASESessionEstState = "case-conn-est";` -/
def kMetricCASESessionEstState : MetricKey := "case-conn-est"

/-- `constexpr MetricKey kMetricWiFiRSSI = "wifi_rssi";` -/
def kMetricWiFiRSSI : MetricKey := "wifi_rssi"

/-- The ten metric-key constants of `metric_keys.h`, lines 32-41, in file
order. -/
def knownMetricKeys : List MetricKey :=
  [kMetricDiscoveryOverBLE, kMetricDiscoveryOnNetwork, kMetricPASESession,
   kMetricPASESessionPair, kMetricPASESessionBLE, kMetricAttestationResult,
   kMetricAttestationOverridden, kMetricCASESession,
   kMetricCASESessionEstState, kMetricWiFiRSSI]

/-- A C++ declaration of the kinds that could occur in `metric_keys.h`:
a `typedef`, a `constexpr` constant of a given type initialised with a
string literal, a function definition, a mutable variable, or a statement
containing control flow. -/
inductive CppDecl where
  | typedefOf (ty : String) (name : String)
  | constexprConstant (ty : String) (name : String) (value : String)
  | functionDefinition (name : String)
  | mutableVariable (ty : String) (name : String)
  | controlFlowStatement (text : String)
deriving DecidableEq, Repr

/-- `true` exactly on an immutable compile-time constant of type
`MetricKey`. -/
def CppDecl.isMetricKeyConstant : CppDecl → Bool
  | .constexprConstant ty _ _ => ty == "MetricKey"
  | _ => false

/-- `true` exactly on the `typedef` introducing `MetricKey`. -/
def CppDecl.isMetricKeyTypedef : CppDecl → Bool
  | .typedefOf ty name => ty == "const char *" && name == "MetricKey"
  | _ => false

/-- The declarations of `metric_keys.h` inside `namespace chip { namespace
Tracing {`, in file order: the `typedef` on line 27 followed by the ten
`constexpr MetricKey` constants on lines 32-41. -/
def metricKeysDecls : List CppDecl :=
  [.typedefOf "const char *" "MetricKey",
   .constexprConstant "MetricKey" "kMetricDiscoveryOverBLE" "disc-over-ble",
   .constexprConstant "MetricKey" "kMetricDiscoveryOnNetwork" "disc-on-nw",
   .constexprConstant "MetricKey" "kMetricPASESession" "pase-session",
   .constexprConstant "MetricKey" "kMetricPASESessionPair" "pase-session-pair",
   .constexprConstant "MetricKey" "kMetricPASESessionBLE" "pase-session-ble",
   .constexprConstant "MetricKey" "kMetricAttestationResult" "attestation-result",
   .constexprConstant "MetricKey" "kMetricAttestationOverridden" "attestation-overridden",
   .constexprConstant "MetricKey" "kMetricCASESession" "case-session",
   .constexprConstant "MetricKey" "kMetricCASESessionEstState" "case-conn-est",
   .constexprConstant "MetricKey" "kMetricWiFiRSSI" "wifi_rssi"]

/-- Prefix test on character lists: `charsStartWith s p` is `true` when
`p` is a prefix of `s`. -/
def charsStartWith : List Char → List Char → Bool
  | _, [] => true
  | [], _ :: _ => false
  | c :: cs, p :: ps => c == p && charsStartWith cs ps

/-- Prefix test on strings, by their character lists. -/
def lineStartsWith (s p : String) : Bool :=
  charsStartWith s.data p.data

/-- Classification of a single source line of `metric_keys.h`. -/
inductive LineKind where
  | blank
  | comment
  | preprocessor
  | namespaceStructure
  | typedefLine
  | constantDecl
  | other
deriving DecidableEq, Repr

/-- Classifies one line of `metric_keys.h` by its leading characters: a
block-comment line starts with `/*` or ` *`, a preprocessor line with `#`,
the namespace scaffolding with `namespace` or `\x7d // namespace`, the
`typedef` with `typedef`, and a metric-key constant with
`constexpr MetricKey`. -/
def classifyLine (s : String) : LineKind :=
  if s == "" then .blank
  else if lineStartsWith s "/*" || lineStartsWith s " *" then .comment
  else if lineStartsWith s "#" then .preprocessor
  else if lineStartsWith s "namespace" || lineStartsWith s "\x7d // namespace" then
    .namespaceStructure
  else if lineStartsWith s "typedef" then .typedefLine
  else if lineStartsWith s "constexpr MetricKey" then .constantDecl
  else .other

/-- The 44 lines of `src/tracing/metric_keys.h`, verbatim and in order. -/
def metricKeysFileLines : List String :=
  ["/*",
   " *    Copyright (c) 2024 Project CHIP Authors",
   " *    All rights reserved.",
   " *",
   " *    Licensed under the Apache License, Version 2.0 (the \"License\");",
   " *    you may not use this file except in compliance with the License.",
   " *    You may obtain a copy of the License at",
   " *",
   " *        http://www.apache.org/licenses/LICENSE-2.0",
   " *",
   " *    Unless required by applicable law or agreed to in writing, software",
   " *    distributed under the License is distributed on an \"AS IS\" BASIS,",
   " *    WITHOUT WARRANTIES OR CONDITIONS OF ANY KIND, either express or implied.",
   " *    See the License for the specific language governing permissions and",
   " *    limitations under the License.",
   " */",
   "#pragma once",
   "",
   "#include <matter/tracing/build_config.h>",
   "",
   "namespace chip \x7b",
   "namespace Tracing \x7b",
   "",
   "/**",
   " * Defines the key type use to identity a specific metric",
   " */",
   "typedef const char * MetricKey;",
   "",
   "/**",
   " * List of supported metric keys",
   " */",
   "constexpr MetricKey kMetricDiscoveryOverBLE      = \"disc-over-ble\";",
   "constexpr MetricKey kMetricDiscoveryOnNetwork    = \"disc-on-nw\";",
   "constexpr MetricKey kMetricPASESession           = \"pase-session\";",
   "constexpr MetricKey kMetricPASESessionPair       = \"pase-session-pair\";",
   "constexpr MetricKey kMetricPASESessionBLE        = \"pase-session-ble\";",
   "constexpr MetricKey kMetricAttestationResult     = \"attestation-result\";",
   "constexpr MetricKey kMetricAttestationOverridden = \"attestation-overridden\";",
   "constexpr MetricKey kMetricCASESession           = \"case-session\";",
   "constexpr MetricKey kMetricCASESessionEstState   = \"case-conn-est\";",
   "constexpr MetricKey kMetricWiFiRSSI              = \"wifi_rssi\";",
   "",
   "\x7d // namespace Tracing",
   "\x7d // namespace chip"]

/-- Modelled from the spec: a `MetricEvent` combines a `MetricKey` with an
optional numeric payload ("an ephemeral value combining a MetricKey, an
optional numeric or string payload"); the implicit capture timestamp is
not observable by any claim and is omitted. -/
structure MetricEvent where
  key : MetricKey
  value : Option Int
deriving DecidableEq, Repr

/-- Modelled from the spec: one entry of the sink table.  `handle` is the
`SinkHandle` returned by `RegisterSink`; `capacity` models a sink with a
bounded buffer (`none` = unbounded, `some c` = room for `c` events, so a
full buffer makes delivery fail); `received` is the list of events this
sink has recorded, oldest first; `dropped` is the sink's internal side
channel counting deliveries it had to swallow. -/
structure SinkEntry where
  handle : Nat
  capacity : Option Nat
  received : List MetricEvent
  dropped : Nat
deriving DecidableEq, Repr

/-- Modelled from the spec: a sink's attempt to accept one event.  It
fails (e.g. "buffer full") when the sink's bounded buffer has no room. -/
def SinkEntry.tryAccept (s : SinkEntry) (e : MetricEvent) :
    Except String SinkEntry :=
  match s.capacity with
  | Option.none => Except.ok { s with received := s.received ++ [e] }
  | Option.some c =>
      if s.received.length < c then
        Except.ok { s with received := s.received ++ [e] }
      else
        Except.error "buffer full"

/-- Modelled from the spec: delivery to one sink during `Emit`.  A failing
sink "must swallow its own error silently or report it through a side
channel": the failure is converted into an increment of the sink's own
`dropped` counter and never leaves the sink. -/
def SinkEntry.deliver (s : SinkEntry) (e : MetricEvent) : SinkEntry :=
  match s.tryAccept e with
  | Except.ok s2 => s2
  | Except.error _ => { s with dropped := s.dropped + 1 }

/-- Modelled from the spec: the process-wide `MetricRegistry/Emitter`
state.  `maxSinks` is the implementation-chosen compile-time bound on the
sink table; `nextHandle` is the next fresh `SinkHandle`; `sinks` is the
sink table in registration order. -/
structure Registry where
  maxSinks : Nat
  nextHandle : Nat
  sinks : List SinkEntry
deriving DecidableEq, Repr

/-- Modelled from the spec: a freshly constructed registry with sink-table
bound `m` and no sinks registered. -/
def emptyRegistry (m : Nat) : Registry :=
  { maxSinks := m, nextHandle := 0, sinks := [] }

/-- Modelled from the spec: `RegisterSink(sink) -> SinkHandle` adds a sink
to the active set and returns a handle for later removal; when the sink
table is full it signals the failure back to the caller, here by returning
`none`. -/
def RegisterSink (r : Registry) (c : Option Nat) :
    Option (Registry × Nat) :=
  if r.sinks.length < r.maxSinks then
    Option.some
      ({ r with nextHandle := r.nextHandle + 1,
                sinks := r.sinks ++ [{ handle := r.nextHandle, capacity := c,
                                       received := [], dropped := 0 }] },
       r.nextHandle)
  else
    Option.none

/-- Modelled from the spec: `UnregisterSink(handle)` removes a previously
registered sink; a no-op when the handle is already invalid or removed. -/
def UnregisterSink (r : Registry) (h : Nat) : Registry :=
  { r with sinks := r.sinks.filter (fun s => s.handle != h) }

/-- Modelled from the spec: `Emit(key, value)` records the event and
synchronously forwards it, in registration order, to each active sink.
It is a total function: no error is ever raised or propagated to the
caller, and the key is forwarded without any validity check. -/
def Emit (r : Registry) (e : MetricEvent) : Registry :=
  { r with sinks := r.sinks.map (fun s => s.deliver e) }

/-- Modelled from the spec: one call of the registry API, for reasoning
over arbitrary call sequences. -/
inductive Op where
  | register (c : Option Nat)
  | unregister (h : Nat)
  | emit (k : MetricKey) (v : Option Int)
deriving DecidableEq, Repr

/-- Modelled from the spec: the effect of one API call on the registry.
A `register` call that is refused (table full) leaves the state
unchanged; the refusal itself is reported to the caller by
`RegisterSink`. -/
def stepOp (r : Registry) : Op → Registry
  | .register c =>
      match RegisterSink r c with
      | Option.some (r2, _) => r2
      | Option.none => r
  | .unregister h => UnregisterSink r h
  | .emit k v => Emit r { key := k, value := v }

/-- Modelled from the spec: runs a sequence of API calls from a starting
state. -/
def runOps (r : Registry) (ops : List Op) : Registry :=
  List.foldl stepOp r ops

/-- Delivery never changes a sink's identity: the handle is preserved
whether the sink accepts the event or swallows a failure. -/
theorem deliver_handle (s : SinkEntry) (e : MetricEvent) :
    (s.deliver e).handle = s.handle := by
  obtain ⟨hd, cap, evs, dr⟩ := s
  rcases cap with _ | c
  · rfl
  · dsimp [SinkEntry.deliver, SinkEntry.tryAccept]
    by_cases hc : evs.length < c
    · rw [if_pos hc]
    · rw [if_neg hc]

/-- Delivery to one sink either appends the event to the sink's record
exactly once, or leaves the record unchanged and counts the swallowed
failure in the sink's own side channel. -/
theorem deliver_received_or_dropped (s : SinkEntry) (e : MetricEvent) :
    (s.deliver e).received = s.received ++ [e] ∨
    ((s.deliver e).received = s.received ∧
     (s.deliver e).dropped = s.dropped + 1) := by
  obtain ⟨hd, cap, evs, dr⟩ := s
  rcases cap with _ | c
  · exact Or.inl rfl
  · dsimp [SinkEntry.deliver, SinkEntry.tryAccept]
    by_cases hc : evs.length < c
    · rw [if_pos hc]
      exact Or.inl rfl
    · rw [if_neg hc]
      exact Or.inr ⟨rfl, rfl⟩

/-- Running `n` successful registrations appends `n` fresh sinks, with
consecutive handles starting at the current `nextHandle`, to the end of
the sink table. -/
theorem runOps_replicate_register (n : Nat) (r : Registry)
    (h : r.sinks.length + n ≤ r.maxSinks) :
    runOps r (List.replicate n (Op.register Option.none)) =
      { r with nextHandle := r.nextHandle + n,
               sinks := r.sinks ++ (List.range' r.nextHandle n).map
                 (fun i => { handle := i, capacity := Option.none,
                             received := [], dropped := 0 }) } := by
  induction n generalizing r with
  | zero => simp [runOps]
  | succ k ih =>
      have hlt : r.sinks.length < r.maxSinks := by omega
      have hstep : stepOp r (Op.register Option.none) =
          { r with nextHandle := r.nextHandle + 1,
                   sinks := r.sinks ++ [{ handle := r.nextHandle,
                                          capacity := Option.none,
                                          received := [], dropped := 0 }] } := by
        dsimp [stepOp, RegisterSink]
        rw [if_pos hlt]
      have hrun : runOps r (List.replicate (k + 1) (Op.register Option.none)) =
          runOps (stepOp r (Op.register Option.none))
            (List.replicate k (Op.register Option.none)) := by
        simp [runOps, List.replicate_succ]
      rw [hrun, hstep, ih]
      · simp [List.range'_succ, List.append_assoc]
        omega
      · simp
        omega

end Tracing

end chip

namespace chip

namespace Tracing

/-- Claim C1: every declaration in `metric_keys.h` other than the
`typedef` of `MetricKey` is an immutable compile-time string constant of
type `MetricKey`; the file defines no functions, no mutable state and no
control flow. -/
theorem metric_keys_decls_only_constants :
    (metricKeysDecls.all fun d =>
        d.isMetricKeyTypedef || d.isMetricKeyConstant) = true ∧
    (metricKeysDecls.filter CppDecl.isMetricKeyTypedef).length = 1 ∧
    (metricKeysDecls.filter CppDecl.isMetricKeyConstant).length = 10 := by
  refine ⟨?_, ?_, ?_⟩ <;> rfl

/-- Claim C2: the defined key set contains a constant whose string value
is `pase-session` (`kMetricPASESession`) and a constant whose string value
is `case-session` (`kMetricCASESession`). -/
theorem pase_and_case_session_keys_defined :
    kMetricPASESession = "pase-session" ∧
    kMetricCASESession = "case-session" ∧
    kMetricPASESession ∈ knownMetricKeys ∧
    kMetricCASESession ∈ knownMetricKeys := by
  refine ⟨rfl, rfl, ?_, ?_⟩ <;> decide

/-- Claim C3: the ten `MetricKey` constants of the file have pairwise
distinct string values. -/
theorem known_metric_keys_pairwise_distinct : knownMetricKeys.Nodup := by
  decide

/-- Claim C4: the source file is exactly 44 lines long, ten of its lines
are `constexpr MetricKey` constant declarations, one is the `typedef`,
and every remaining line is a comment, a blank line, a preprocessor
directive or namespace scaffolding — no other code at all. -/
theorem metric_keys_file_shape :
    metricKeysFileLines.length = 44 ∧
    (metricKeysFileLines.map classifyLine).count LineKind.constantDecl = 10 ∧
    (metricKeysFileLines.map classifyLine).count LineKind.typedefLine = 1 ∧
    (metricKeysFileLines.map classifyLine).count LineKind.other = 0 := by
  refine ⟨?_, ?_, ?_, ?_⟩ <;> decide

/-- Claim C5: for every sequence of API calls, `Emit` never raises or
propagates an error: it is a total function, every sink slot survives the
emission, and each sink either records the event exactly once or swallows
its own delivery failure into its internal drop counter.  The key `k` is
arbitrary — an unregistered or unknown key is accepted and forwarded,
never rejected. -/
theorem emit_never_fails (m : Nat) (ops : List Op) (k : MetricKey)
    (v : Option Int) (i : Nat) (s : SinkEntry)
    (hs : (runOps (emptyRegistry m) ops).sinks[i]? = Option.some s) :
    (Emit (runOps (emptyRegistry m) ops) { key := k, value := v }).sinks.length
        = (runOps (emptyRegistry m) ops).sinks.length ∧
    (Emit (runOps (emptyRegistry m) ops) { key := k, value := v }).sinks[i]?
        = Option.some (s.deliver { key := k, value := v }) ∧
    ((s.deliver { key := k, value := v }).received
        = s.received ++ [{ key := k, value := v }] ∨
     ((s.deliver { key := k, value := v }).received = s.received ∧
      (s.deliver { key := k, value := v }).dropped = s.dropped + 1)) := by
  refine ⟨by simp [Emit], ?_, deliver_received_or_dropped s _⟩
  simp [Emit, hs]

/-- Witness for claim C5, at a sink registered with a zero-capacity
buffer so that delivery fails and is swallowed: emitting an unknown key
still succeeds and the failure is only counted in the sink's side
channel. -/
theorem emit_never_fails_witness :
    (Emit (runOps (emptyRegistry 4) [Op.register (Option.some 0)])
        { key := "bogus-key", value := Option.none }).sinks.length
        = (runOps (emptyRegistry 4) [Op.register (Option.some 0)]).sinks.length ∧
    (Emit (runOps (emptyRegistry 4) [Op.register (Option.some 0)])
        { key := "bogus-key", value := Option.none }).sinks[0]?
        = Option.some (SinkEntry.deliver
            { handle := 0, capacity := Option.some 0, received := [], dropped := 0 }
            { key := "bogus-key", value := Option.none }) ∧
    ((SinkEntry.deliver
        { handle := 0, capacity := Option.some 0, received := [], dropped := 0 }
        { key := "bogus-key", value := Option.none }).received
        = ([] : List MetricEvent) ++ [{ key := "bogus-key", value := Option.none }] ∨
     ((SinkEntry.deliver
        { handle := 0, capacity := Option.some 0, received := [], dropped := 0 }
        { key := "bogus-key", value := Option.none }).received = [] ∧
      (SinkEntry.deliver
        { handle := 0, capacity := Option.some 0, received := [], dropped := 0 }
        { key := "bogus-key", value := Option.none }).dropped = 0 + 1)) :=
  emit_never_fails 4 [Op.register (Option.some 0)] "bogus-key" Option.none 0
    { handle := 0, capacity := Option.some 0, received := [], dropped := 0 }
    (by decide)

/-- Claim C6: registering `N ≤ max` sinks and emitting once delivers the
event to all `N` sinks, exactly once each, in registration order: the
resulting table is exactly the sinks with handles `0 .. N-1` in order,
each having recorded the single event. -/
theorem register_then_emit_delivers_in_order (M N : Nat) (hNM : N ≤ M)
    (e : MetricEvent) :
    (Emit (runOps (emptyRegistry M)
        (List.replicate N (Op.register Option.none))) e).sinks =
      (List.range N).map
        (fun i => { handle := i, capacity := Option.none,
                    received := [e], dropped := 0 }) := by
  have h := runOps_replicate_register N (emptyRegistry M)
    (by simpa [emptyRegistry] using hNM)
  rw [h]
  simp [Emit, SinkEntry.deliver, SinkEntry.tryAccept, emptyRegistry,
    List.range_eq_range']

/-- Witness for claim C6: two sinks registered, one emission of
`pase-session` with value 1 reaches both, in order, exactly once each. -/
theorem register_then_emit_delivers_in_order_witness :
    (Emit (runOps (emptyRegistry 4)
        (List.replicate 2 (Op.register Option.none)))
        { key := kMetricPASESession, value := Option.some 1 }).sinks =
      (List.range 2).map
        (fun i => { handle := i, capacity := Option.none,
                    received := [{ key := kMetricPASESession,
                                   value := Option.some 1 }], dropped := 0 }) :=
  register_then_emit_delivers_in_order 4 2 (by decide)
    { key := kMetricPASESession, value := Option.some 1 }

/-- Claim C7: emitting with zero sinks registered has no observable side
effect: the registry is unchanged and no sink receives anything. -/
theorem emit_zero_sinks_noop (r : Registry) (e : MetricEvent)
    (h : r.sinks = []) :
    Emit r e = r ∧ (Emit r e).sinks = [] := by
  obtain ⟨m, n, sl⟩ := r
  cases h
  simp [Emit]

/-- Witness for claim C7: emitting on a fresh registry changes nothing. -/
theorem emit_zero_sinks_noop_witness :
    Emit (emptyRegistry 4) { key := kMetricPASESession, value := Option.some 1 }
        = emptyRegistry 4 ∧
    (Emit (emptyRegistry 4)
        { key := kMetricPASESession, value := Option.some 1 }).sinks = [] :=
  emit_zero_sinks_noop (emptyRegistry 4)
    { key := kMetricPASESession, value := Option.some 1 } rfl

/-- Claim C8: after `UnregisterSink h`, no sink with handle `h` receives
any subsequent event, every other registered sink still receives its
delivery, and unregistering a handle that is not in the table is a no-op,
not an error. -/
theorem unregister_stops_delivery (r : Registry) (h : Nat)
    (e : MetricEvent) :
    (∀ s, s ∈ (Emit (UnregisterSink r h) e).sinks → s.handle ≠ h) ∧
    (∀ s, s ∈ r.sinks → s.handle ≠ h →
        SinkEntry.deliver s e ∈ (Emit (UnregisterSink r h) e).sinks) ∧
    ((∀ s, s ∈ r.sinks → s.handle ≠ h) → UnregisterSink r h = r) := by
  refine ⟨?_, ?_, ?_⟩
  · intro s hs
    simp only [Emit, UnregisterSink, List.mem_map, List.mem_filter] at hs
    obtain ⟨t, ⟨_, hth⟩, rfl⟩ := hs
    rw [deliver_handle]
    simpa using hth
  · intro s hs hne
    simp only [Emit, UnregisterSink, List.mem_map]
    exact ⟨s, List.mem_filter.mpr ⟨hs, by simpa using hne⟩, rfl⟩
  · intro hall
    obtain ⟨m, n, sl⟩ := r
    simp only [UnregisterSink, Registry.mk.injEq, true_and]
    exact List.filter_eq_self.mpr (fun s hs => by simpa using hall s hs)

/-- Witness for claim C8: with sinks `A` (handle 0) and `B` (handle 1)
registered, after unregistering `A` an emission of `case-session` with
value 0 is still delivered to `B`. -/
theorem unregister_stops_delivery_witness :
    SinkEntry.deliver
        { handle := 1, capacity := Option.none, received := [], dropped := 0 }
        { key := kMetricCASESession, value := Option.some 0 } ∈
      (Emit (UnregisterSink
          { maxSinks := 4, nextHandle := 2,
            sinks := [{ handle := 0, capacity := Option.none,
                        received := [], dropped := 0 },
                      { handle := 1, capacity := Option.none,
                        received := [], dropped := 0 }] } 0)
        { key := kMetricCASESession, value := Option.some 0 }).sinks :=
  (unregister_stops_delivery _ 0 _).2.1
    { handle := 1, capacity := Option.none, received := [], dropped := 0 }
    (by decide) (by decide)

/-- Claim C9: whenever the sink table has a free slot, `RegisterSink`
succeeds and returns a handle present in the new table; when the table is
full, it reports the failure to its caller by returning `none` instead of
silently dropping the registration. -/
theorem register_signals_full (r : Registry) (c : Option Nat) :
    (r.sinks.length < r.maxSinks →
      ∃ r2 hdl, RegisterSink r c = Option.some (r2, hdl) ∧
        hdl ∈ r2.sinks.map SinkEntry.handle ∧
        r2.sinks.length = r.sinks.length + 1) ∧
    (r.maxSinks ≤ r.sinks.length → RegisterSink r c = Option.none) := by
  constructor
  · intro hlt
    refine ⟨{ r with nextHandle := r.nextHandle + 1,
                     sinks := r.sinks ++ [{ handle := r.nextHandle,
                                            capacity := c,
                                            received := [], dropped := 0 }] },
            r.nextHandle, ?_, ?_, ?_⟩
    · dsimp [RegisterSink]
      rw [if_pos hlt]
    · simp
    · simp
  · intro hge
    dsimp [RegisterSink]
    rw [if_neg (by omega)]

/-- Witness for claim C9: a table of capacity 1 holding one sink refuses a
second registration, and the refusal is reported to the caller. -/
theorem register_signals_full_witness :
    RegisterSink
        { maxSinks := 1, nextHandle := 1,
          sinks := [{ handle := 0, capacity := Option.none,
                      received := [], dropped := 0 }] } Option.none
      = Option.none :=
  (register_signals_full _ Option.none).2 (by decide)

end Tracing

end chip
